import Mathlib

/-!
Shallow embedding of the multi-provider model client core of the
prompt-optimizer repository (src/core/models.py, src/core/base_adapter.py,
src/core/client.py, src/services/adapters/ollama.py,
src/services/adapters/openai.py, src/config/settings.py), together with
theorems settling the frozen claims about it.

Conventions of the embedding:
  * Python floats that the code only stores, compares for equality and
    echoes back (sampling parameters, measured times) are modelled as `ℚ`;
    no floating-point arithmetic occurs anywhere in the embedded code.
  * HTTP calls and the OpenAI SDK are the environment: each embedded
    method takes the outcome of its network interaction as an explicit
    argument (an inductive covering success, non-2xx status, timeout,
    refused connection, malformed body / other exception), and the wall
    clock readings it would take as explicit `ℚ` arguments.
  * `datetime.now()` creation timestamps (`ModelResponse.timestamp`,
    `ConnectionStatus.last_check`) are pure wall-clock bookkeeping that no
    embedded computation reads; they are left out of the records.
  * Exceptions raised by embedded code are `Except`; a Python method that
    catches every exception and returns normally is a total function.
-/

namespace PromptOpt

/-- Embedding of `core/models.py` `ModelProvider` (the enum actually defined there;
`config/settings.py` also mentions `ModelProvider.VLLM` and
`ModelProvider.QIANFAN`, names that do not exist on this enum). -/
inductive ModelProvider where
  | ollama
  | openai
  | anthropic
  | qwen
  | chatglm
  | deepseek
  | moonshot
  | ernie
deriving DecidableEq, Repr

/-- Embedding of `ModelProvider.value` in Python (the enum's string value). -/
def ModelProvider.value : ModelProvider → String
  | .ollama => "ollama"
  | .openai => "openai"
  | .anthropic => "anthropic"
  | .qwen => "qwen"
  | .chatglm => "chatglm"
  | .deepseek => "deepseek"
  | .moonshot => "moonshot"
  | .ernie => "ernie"

/-- Embedding of `core/models.py` `GenerationConfig` with its construction defaults. -/
structure GenerationConfig where
  temperature : ℚ := mkRat 7 10
  top_p : ℚ := mkRat 9 10
  top_k : Option ℤ := none
  max_tokens : ℤ := 4096
  stop_sequences : Option (List String) := none
  stream : Bool := false
  system_prompt : Option String := none
  frequency_penalty : ℚ := 0
  presence_penalty : ℚ := 0
deriving DecidableEq, Repr

/-- Embedding of `GenerationConfig()` with no arguments: the construction default. -/
def defaultGenerationConfig : GenerationConfig := {}

/-- The Python dict produced by `GenerationConfig.to_dict` and consumed by
`GenerationConfig.from_dict`: every field key may be absent.  A key mapped
to Python `None` is identified with an absent key; `to_dict` never emits a
`None` value, and for the three keys whose construction default is `None`
(`top_k`, `stop_sequences`, `system_prompt`) `from_dict` treats a `None`
value and an absent key identically. -/
structure GCDict where
  temperature : Option ℚ := none
  top_p : Option ℚ := none
  top_k : Option ℤ := none
  max_tokens : Option ℤ := none
  stop_sequences : Option (List String) := none
  stream : Option Bool := none
  system_prompt : Option String := none
  frequency_penalty : Option ℚ := none
  presence_penalty : Option ℚ := none
deriving DecidableEq, Repr

/-- Embedding of `GenerationConfig.to_dict`: `asdict` filtered to the non-`None`
entries.  The six fields whose values are never `None` in a well-typed
config are always present; the three `Optional` fields are present exactly
when set. -/
def GenerationConfig.toDict (c : GenerationConfig) : GCDict where
  temperature := some c.temperature
  top_p := some c.top_p
  top_k := c.top_k
  max_tokens := some c.max_tokens
  stop_sequences := c.stop_sequences
  stream := some c.stream
  system_prompt := c.system_prompt
  frequency_penalty := some c.frequency_penalty
  presence_penalty := some c.presence_penalty

/-- Embedding of `GenerationConfig.from_dict` / `GenerationConfig(**d)`: every key of
the dict names a class attribute (all nine fields have defaults), so the
`hasattr` filter keeps them all; absent keys fall back to the construction
defaults. -/
def GenerationConfig.fromDict (d : GCDict) : GenerationConfig where
  temperature := d.temperature.getD (mkRat 7 10)
  top_p := d.top_p.getD (mkRat 9 10)
  top_k := d.top_k
  max_tokens := d.max_tokens.getD 4096
  stop_sequences := d.stop_sequences
  stream := d.stream.getD false
  system_prompt := d.system_prompt
  frequency_penalty := d.frequency_penalty.getD 0
  presence_penalty := d.presence_penalty.getD 0

/-- The `parameters` map of a catalog model entry in
`config/settings.py` `ModelConfig.MODELS`.  The keys occurring in that
file are exactly `temperature`, `top_p`, `top_k`, `repeat_penalty`,
`max_tokens`, `frequency_penalty`, `presence_penalty`; `repeat_penalty`
is not a `GenerationConfig` field, so `_merge_config`'s `hasattr` test
skips it. -/
structure CatalogParams where
  temperature : Option ℚ := none
  top_p : Option ℚ := none
  top_k : Option ℤ := none
  repeat_penalty : Option ℚ := none
  max_tokens : Option ℤ := none
  frequency_penalty : Option ℚ := none
  presence_penalty : Option ℚ := none
deriving DecidableEq, Repr

/-- One iteration of the `_merge_config` loop for a single field: the
catalog value overwrites the current value exactly when the current value
still equals the construction default. -/
def mergeField {α : Type} [DecidableEq α] (cur defVal : α) (cat : Option α) : α :=
  match cat with
  | some v => if cur = defVal then v else cur
  | none => cur

/-- The `for key, value in default_params.items()` loop of
`BaseModelAdapter._merge_config` (src/core/base_adapter.py lines 73-75):
each catalog key that is a `GenerationConfig` field is applied
independently (each key occurs once in the dict, and the comparison is
against a fresh `GenerationConfig()`); `repeat_penalty` fails the
`hasattr` test and is ignored. -/
def applyCatalogDefaults (params : CatalogParams) (g : GenerationConfig) :
    GenerationConfig where
  temperature := mergeField g.temperature (mkRat 7 10) params.temperature
  top_p := mergeField g.top_p (mkRat 9 10) params.top_p
  top_k := mergeField g.top_k none (params.top_k.map some)
  max_tokens := mergeField g.max_tokens 4096 params.max_tokens
  stop_sequences := g.stop_sequences
  stream := g.stream
  system_prompt := g.system_prompt
  frequency_penalty := mergeField g.frequency_penalty 0 params.frequency_penalty
  presence_penalty := mergeField g.presence_penalty 0 params.presence_penalty

/-- A model entry of `ModelConfig.MODELS[provider]["models"]`. -/
structure CatalogModel where
  name : String
  display_name : String
  description : String
  category : String
  context_length : ℤ
  parameters : CatalogParams
deriving DecidableEq, Repr

/-- Embedding of `BaseModelAdapter._merge_config` (src/core/base_adapter.py lines
60-77; textually identical copy in src/core/client.py lines 62-79):
the caller's config is first copied via
`GenerationConfig(**config.to_dict())` (or a fresh default when `None`),
then the catalog default parameters are applied to the copy. -/
def mergeConfig (modelConfig : Option CatalogModel)
    (config : Option GenerationConfig) : GenerationConfig :=
  let defaultParams := (modelConfig.map (·.parameters)).getD {}
  let merged :=
    match config with
    | some c => GenerationConfig.fromDict c.toDict
    | none => defaultGenerationConfig
  applyCatalogDefaults defaultParams merged

/-- Copying a config through `to_dict` reproduces it field for field. -/
theorem fromDict_toDict (c : GenerationConfig) :
    GenerationConfig.fromDict c.toDict = c := by
  cases c
  rfl

/-- The `message` object of an Ollama `/api/chat` response body; the code
reads only `result.get("message", {}).get("content", "")`. -/
structure OllamaChatMsg where
  content : Option String := none
deriving DecidableEq, Repr

/-- A metadata value stored into `ModelResponse.metadata` by the Ollama
adapter: either an optional integer duration/count or the echoed chat
`message` object. -/
inductive MetaVal where
  | num (v : Option ℤ)
  | msg (m : OllamaChatMsg)
deriving DecidableEq, Repr

/-- Embedding of `core/models.py` `ModelResponse` (the `timestamp` creation time is
not modelled, see the header). -/
structure ModelResponse where
  content : String
  model : String
  provider : String
  success : Bool
  response_time : ℚ
  tokens_used : Option ℤ := none
  tokens_prompt : Option ℤ := none
  cost : Option ℚ := none
  metadata : List (String × MetaVal) := []
  error : Option String := none
deriving DecidableEq, Repr

/-- Embedding of `core/models.py` `ConnectionStatus` (the `last_check` creation time is
not modelled, see the header). -/
structure ConnectionStatus where
  provider : ModelProvider
  connected : Bool
  status_message : String
  models_available : List String := []
  error_details : Option String := none
  response_time : Option ℚ := none
deriving DecidableEq, Repr

/-- Embedding of `core/models.py` `ModelInfo`. -/
structure ModelInfo where
  name : String
  display_name : String
  provider : ModelProvider
  description : String := ""
  category : String := "通用对话"
  context_length : ℤ := 4096
  parameters : CatalogParams := {}
  available : Bool := true
  size : Option ℤ := none
  modified_at : Option String := none
deriving DecidableEq, Repr

/-- The JSON body of a successful Ollama `/api/generate` call, as read by
`OllamaAdapter.generate` via `result.get(...)`. -/
structure OllamaGenBody where
  response : Option String := none
  eval_count : Option ℤ := none
  prompt_eval_count : Option ℤ := none
  eval_duration : Option ℤ := none
  prompt_eval_duration : Option ℤ := none
  total_duration : Option ℤ := none
  load_duration : Option ℤ := none
deriving DecidableEq, Repr

/-- The JSON body of a successful Ollama `/api/chat` call. -/
structure OllamaChatBody where
  message : Option OllamaChatMsg := none
  eval_count : Option ℤ := none
  prompt_eval_count : Option ℤ := none
  eval_duration : Option ℤ := none
  prompt_eval_duration : Option ℤ := none
  total_duration : Option ℤ := none
deriving DecidableEq, Repr

/-- The outcome of one `requests` call made by the Ollama adapter, seen
from the adapter's `try` block.  `body` is the parsed JSON of a 200
response; `httpError` carries the non-2xx status together with
`response.json().get("error", ...)` — `errJson = none` when the error body
is not valid JSON, `some none` when it is JSON without an `error` key —
and the raw `response.text`; `otherExc` covers every remaining exception
(including a 200 response whose body fails JSON parsing), carrying
`str(e)`. -/
inductive OllamaOutcome (β : Type) where
  | body (b : β)
  | httpError (status : ℕ) (errJson : Option (Option String)) (text : String)
  | timeout
  | connError
  | otherExc (msg : String)
deriving DecidableEq, Repr

/-- True on every outcome other than a successfully parsed 2xx body,
i.e. on the per-call failure categories of the spec: non-2xx HTTP status,
timeout, refused connection, and malformed body / other exception. -/
def OllamaOutcome.isFailure {β : Type} : OllamaOutcome β → Bool
  | .body _ => false
  | _ => true

/-- The `error_msg` built by the Ollama adapter for a non-2xx response:
`"HTTP {status}"` extended with the JSON `error` field when the body
parses, else with `response.text`. -/
def ollamaHttpErrorMsg (status : ℕ) (errJson : Option (Option String))
    (text : String) : String :=
  "HTTP " ++ toString status ++ ": " ++
    (match errJson with
     | some (some e) => e
     | some none => text
     | none => text)

/-- Embedding of `OllamaAdapter.generate` (src/services/adapters/ollama.py lines
139-230).  `timeoutCfg` is `self.timeout`; `elapsed` is the value
`time.time() - start_time` would have at the point the code reads the
clock again (the request payload built from `_merge_config` is not
returned to the caller and is not modelled; on the `Timeout` branch the
code reads no clock and reports `self.timeout` instead). -/
def ollamaGenerate (timeoutCfg : ℚ) (modelName : String) (elapsed : ℚ)
    (outcome : OllamaOutcome OllamaGenBody) : ModelResponse :=
  match outcome with
  | .body b =>
      { content := b.response.getD ""
        model := modelName
        provider := ModelProvider.ollama.value
        success := true
        response_time := elapsed
        tokens_used := b.eval_count
        tokens_prompt := b.prompt_eval_count
        metadata := [("eval_duration", .num b.eval_duration),
                     ("prompt_eval_duration", .num b.prompt_eval_duration),
                     ("total_duration", .num b.total_duration),
                     ("load_duration", .num b.load_duration)] }
  | .httpError status errJson text =>
      { content := ""
        model := modelName
        provider := ModelProvider.ollama.value
        success := false
        response_time := elapsed
        error := some (ollamaHttpErrorMsg status errJson text) }
  | .timeout =>
      { content := ""
        model := modelName
        provider := ModelProvider.ollama.value
        success := false
        response_time := timeoutCfg
        error := some ("请求超时 (" ++ toString timeoutCfg ++
          "s)，请检查模型是否正在运行") }
  | .connError =>
      { content := ""
        model := modelName
        provider := ModelProvider.ollama.value
        success := false
        response_time := elapsed
        error := some "无法连接到Ollama服务，请确保服务已启动" }
  | .otherExc msg =>
      { content := ""
        model := modelName
        provider := ModelProvider.ollama.value
        success := false
        response_time := elapsed
        error := some ("请求失败: " ++ msg) }

/-- Embedding of `OllamaAdapter.chat` (src/services/adapters/ollama.py lines 239-327). -/
def ollamaChat (timeoutCfg : ℚ) (modelName : String) (elapsed : ℚ)
    (outcome : OllamaOutcome OllamaChatBody) : ModelResponse :=
  match outcome with
  | .body b =>
      { content := ((b.message.getD {}).content).getD ""
        model := modelName
        provider := ModelProvider.ollama.value
        success := true
        response_time := elapsed
        tokens_used := b.eval_count
        tokens_prompt := b.prompt_eval_count
        metadata := [("eval_duration", .num b.eval_duration),
                     ("prompt_eval_duration", .num b.prompt_eval_duration),
                     ("total_duration", .num b.total_duration),
                     ("message", .msg (b.message.getD {}))] }
  | .httpError status errJson text =>
      { content := ""
        model := modelName
        provider := ModelProvider.ollama.value
        success := false
        response_time := elapsed
        error := some (ollamaHttpErrorMsg status errJson text) }
  | .timeout =>
      { content := ""
        model := modelName
        provider := ModelProvider.ollama.value
        success := false
        response_time := timeoutCfg
        error := some ("聊天请求超时 (" ++ toString timeoutCfg ++ "s)") }
  | .connError =>
      { content := ""
        model := modelName
        provider := ModelProvider.ollama.value
        success := false
        response_time := elapsed
        error := some "无法连接到Ollama服务" }
  | .otherExc msg =>
      { content := ""
        model := modelName
        provider := ModelProvider.ollama.value
        success := false
        response_time := elapsed
        error := some ("聊天请求失败: " ++ msg) }

/-- One entry of the Ollama `/api/tags` model list. -/
structure OllamaTagEntry where
  name : String
  size : Option ℤ := none
  modified_at : Option String := none
deriving DecidableEq, Repr

/-- The parsed `/api/tags` body: `data.get("models", [])`. -/
structure OllamaTagsBody where
  models : List OllamaTagEntry := []
deriving DecidableEq, Repr

/-- Embedding of `OllamaAdapter.check_connection` (src/services/adapters/ollama.py
lines 36-88).  A 200 response whose body fails JSON parsing, or whose
parsed entries lack a `name` key, raises inside the `try` and is caught by
the final `except Exception`, i.e. the `otherExc` branch. -/
def ollamaCheckConnection (elapsed : ℚ)
    (outcome : OllamaOutcome OllamaTagsBody) : ConnectionStatus :=
  match outcome with
  | .body b =>
      { provider := .ollama
        connected := true
        status_message := "连接正常"
        models_available := b.models.map (·.name)
        response_time := some elapsed }
  | .httpError status _ _ =>
      { provider := .ollama
        connected := false
        status_message := "HTTP " ++ toString status
        error_details := some ("服务响应异常: " ++ toString status)
        response_time := some elapsed }
  | .timeout =>
      { provider := .ollama
        connected := false
        status_message := "连接超时"
        error_details := some "连接超时，请检查网络状态" }
  | .connError =>
      { provider := .ollama
        connected := false
        status_message := "连接失败"
        error_details := some "无法连接到Ollama服务，请确保服务已启动" }
  | .otherExc msg =>
      { provider := .ollama
        connected := false
        status_message := "未知错误"
        error_details := some ("连接检查失败: " ++ msg) }

/-- A provider entry of `config/settings.py` `ModelConfig.MODELS`. -/
structure ProviderCatalog where
  display_name : String
  description : String
  models : List CatalogModel
deriving DecidableEq, Repr

/-- Embedding of `ModelConfig.MODELS[ModelProvider.OLLAMA]["models"]`. -/
def ollamaCatalogModels : List CatalogModel :=
  [{ name := "qwen2.5:latest"
     display_name := "通义千问 2.5 (最新)"
     description := "阿里巴巴的中文优化模型"
     category := "中文优化"
     context_length := 32768
     parameters := { temperature := some (mkRat 8 10), top_p := some (mkRat 9 10),
                     top_k := some 50, repeat_penalty := some (mkRat 105 100),
                     max_tokens := some 8192 } }]

/-- Embedding of `ModelConfig.MODELS[ModelProvider.OPENAI]["models"]`. -/
def openaiCatalogModels : List CatalogModel :=
  [{ name := "gpt-4o"
     display_name := "GPT-4o"
     description := "OpenAI最新的多模态模型"
     category := "通用对话"
     context_length := 128000
     parameters := { temperature := some (mkRat 7 10), top_p := some 1,
                     max_tokens := some 4096, frequency_penalty := some 0,
                     presence_penalty := some 0 } },
   { name := "gpt-4-turbo"
     display_name := "GPT-4 Turbo"
     description := "更快速的GPT-4版本"
     category := "通用对话"
     context_length := 128000
     parameters := { temperature := some (mkRat 7 10), top_p := some 1,
                     max_tokens := some 4096, frequency_penalty := some 0,
                     presence_penalty := some 0 } },
   { name := "gpt-3.5-turbo"
     display_name := "GPT-3.5 Turbo"
     description := "经济实用的对话模型"
     category := "通用对话"
     context_length := 16385
     parameters := { temperature := some (mkRat 7 10), top_p := some 1,
                     max_tokens := some 4096, frequency_penalty := some 0,
                     presence_penalty := some 0 } }]

/-- Embedding of `ModelConfig.MODELS[ModelProvider.ANTHROPIC]["models"]`. -/
def anthropicCatalogModels : List CatalogModel :=
  [{ name := "claude-3-5-sonnet-20241022"
     display_name := "Claude 3.5 Sonnet"
     description := "Anthropic最新的高性能模型"
     category := "通用对话"
     context_length := 200000
     parameters := { temperature := some (mkRat 7 10), top_p := some 1,
                     max_tokens := some 4096 } },
   { name := "claude-3-opus-20240229"
     display_name := "Claude 3 Opus"
     description := "Anthropic最强大的模型"
     category := "通用对话"
     context_length := 200000
     parameters := { temperature := some (mkRat 7 10), top_p := some 1,
                     max_tokens := some 4096 } }]

/-- Embedding of `ModelConfig.MODELS[ModelProvider.DEEPSEEK]["models"]`. -/
def deepseekCatalogModels : List CatalogModel :=
  [{ name := "deepseek-chat"
     display_name := "DeepSeek Chat"
     description := "深度求索的通用对话模型"
     category := "通用对话"
     context_length := 32768
     parameters := { temperature := some (mkRat 7 10), top_p := some (mkRat 9 10),
                     max_tokens := some 4096, frequency_penalty := some 0,
                     presence_penalty := some 0 } },
   { name := "deepseek-reasoner"
     display_name := "DeepSeek推理模型"
     description := "深度求索的推理模型"
     category := "推理类模型"
     context_length := 32768
     parameters := { temperature := some (mkRat 1 10), top_p := some (mkRat 95 100),
                     max_tokens := some 16384, frequency_penalty := some 0,
                     presence_penalty := some 0 } }]

/-- Embedding of `config/settings.py` `ModelConfig.MODELS`.  The source dict also
writes an entry under `ModelProvider.VLLM`, a name that does not exist on
the `core/models.py` enum this module imports; that entry is not
representable over the enum and is omitted here, and no claim reaches
it. -/
def modelsCatalog : ModelProvider → Option ProviderCatalog
  | .ollama => some { display_name := "Ollama (本地)"
                      description := "本地部署的开源模型"
                      models := ollamaCatalogModels }
  | .openai => some { display_name := "OpenAI"
                      description := "OpenAI 官方模型"
                      models := openaiCatalogModels }
  | .anthropic => some { display_name := "Anthropic Claude"
                         description := "Anthropic 官方模型"
                         models := anthropicCatalogModels }
  | .deepseek => some { display_name := "DeepSeek"
                        description := "深度求索模型"
                        models := deepseekCatalogModels }
  | _ => none

/-- Embedding of `ConfigValidator.get_model_config` (src/config/settings.py lines
442-452): the first catalog entry with the given name. -/
def getModelConfig (provider : ModelProvider) (modelName : String) :
    Option CatalogModel :=
  (((modelsCatalog provider).map (·.models)).getD []).find?
    (fun m => m.name = modelName)

/-- Embedding of `OllamaAdapter._get_default_parameters` (src/services/adapters/ollama.py
lines 354-362). -/
def ollamaDefaultParameters : CatalogParams :=
  { temperature := some (mkRat 7 10), top_p := some (mkRat 9 10), top_k := some 40,
    repeat_penalty := some (mkRat 11 10), max_tokens := some 4096 }

/-- The per-tag config lookup inside `OllamaAdapter.get_available_models`:
the first configured Ollama model whose name equals the tag name or whose
name's prefix before `":"` is a prefix of the tag name. -/
def ollamaFindConfigModel (modelName : String) : Option CatalogModel :=
  ollamaCatalogModels.find?
    (fun cfg => cfg.name = modelName ||
      modelName.startsWith ((cfg.name.splitOn ":").headD ""))

/-- Embedding of `OllamaAdapter.get_available_models` (src/services/adapters/ollama.py
lines 90-136): a non-2xx status returns `[]` after logging, and any
exception (timeout, refused connection, malformed body) is caught by the
blanket `except` and also returns `[]`; only a 200 response is merged
with the static catalog. -/
def ollamaGetAvailableModels (outcome : OllamaOutcome OllamaTagsBody) :
    List ModelInfo :=
  match outcome with
  | .body b =>
      b.models.map (fun e =>
        match ollamaFindConfigModel e.name with
        | some cfg =>
            { name := e.name
              display_name := cfg.display_name
              provider := .ollama
              description := cfg.description
              category := cfg.category
              context_length := cfg.context_length
              parameters := cfg.parameters
              available := true
              size := some (e.size.getD 0)
              modified_at := some (e.modified_at.getD "") }
        | none =>
            { name := e.name
              display_name := e.name
              provider := .ollama
              description := "本地模型"
              category := "通用对话"
              context_length := 4096
              parameters := ollamaDefaultParameters
              available := true
              size := some (e.size.getD 0)
              modified_at := some (e.modified_at.getD "") })
  | .httpError _ _ _ => []
  | .timeout => []
  | .connError => []
  | .otherExc _ => []

/-- The outcome of one call through the OpenAI SDK client, seen from the
adapter's `try` block: either the parsed successful result, or an
exception whose `str(e)` is `msg` (the SDK turns timeouts, refused
connections, non-2xx statuses and malformed bodies into exceptions; the
adapters' single `except Exception` handler makes no finer
distinction). -/
inductive OpenAIOutcome (β : Type) where
  | result (b : β)
  | exc (msg : String)
deriving DecidableEq, Repr

/-- Embedding of `OpenAIModelAdapter.check_connection` (src/services/adapters/openai.py
lines 53-80): `models.list()` either yields model ids or raises. -/
def openaiCheckConnection (provider : ModelProvider) (elapsed : ℚ)
    (outcome : OpenAIOutcome (List String)) : ConnectionStatus :=
  match outcome with
  | .result ids =>
      { provider := provider
        connected := true
        status_message := "连接正常"
        models_available := ids
        response_time := some elapsed }
  | .exc msg =>
      { provider := provider
        connected := false
        status_message := "连接失败: " ++ msg
        error_details := some msg }

/-- Embedding of `OpenAIModelAdapter.get_available_models` (src/services/adapters/openai.py
lines 82-116): a successful `models.list()` is mapped to `ModelInfo`
entries; any exception falls back to the static catalog for the adapter's
provider (empty when `ModelConfig.MODELS` has no entry), marked
unavailable. -/
def openaiGetAvailableModels (provider : ModelProvider)
    (outcome : OpenAIOutcome (List String)) : List ModelInfo :=
  match outcome with
  | .result ids =>
      ids.map (fun id =>
        { name := id
          display_name := id
          provider := provider
          description := "OpenAI " ++ id ++ " model"
          category := "通用对话"
          context_length := 0
          parameters := {}
          available := true })
  | .exc _ =>
      (((modelsCatalog provider).map (·.models)).getD []).map (fun m =>
        { name := m.name
          display_name := m.display_name
          provider := provider
          description := m.description
          category := m.category
          context_length := m.context_length
          parameters := m.parameters
          available := false })

/-- One message of an OpenAI chat-completions request. -/
structure OpenAIMessage where
  role : String
  content : String
deriving DecidableEq, Repr

/-- The request payload `OpenAIModelAdapter.generate`/`chat` pass to
`client.chat.completions.create`: only `model`, `messages`,
`temperature`, `max_tokens` and `top_p` are transmitted. -/
structure OpenAIPayload where
  model : String
  messages : List OpenAIMessage
  temperature : ℚ
  max_tokens : ℤ
  top_p : ℚ
deriving DecidableEq, Repr

/-- The parsed successful chat-completions response: the first choice's
message content and the optional usage counts (total, prompt). -/
structure OpenAICompletion where
  content : String
  usage : Option (ℤ × ℤ) := none
deriving DecidableEq, Repr

/-- Embedding of `OpenAIModelAdapter.generate` (src/services/adapters/openai.py lines
118-155): the config (defaulted when absent) feeds the payload directly —
`_merge_config` is never called on this path — and the pair returned here
exposes both the transmitted payload and the `ModelResponse`. -/
def openaiGenerate (modelName prompt : String) (provider : ModelProvider)
    (config : Option GenerationConfig) (elapsed : ℚ)
    (outcome : OpenAIOutcome OpenAICompletion) :
    OpenAIPayload × ModelResponse :=
  let c := config.getD defaultGenerationConfig
  let payload : OpenAIPayload :=
    { model := modelName
      messages := [{ role := "user", content := prompt }]
      temperature := c.temperature
      max_tokens := c.max_tokens
      top_p := c.top_p }
  match outcome with
  | .result r =>
      (payload,
       { content := r.content
         model := modelName
         provider := provider.value
         success := true
         response_time := elapsed
         tokens_used := r.usage.map (·.1)
         tokens_prompt := r.usage.map (·.2) })
  | .exc msg =>
      (payload,
       { content := ""
         model := modelName
         provider := provider.value
         success := false
         response_time := elapsed
         error := some msg })

/-- Embedding of `OpenAIModelAdapter.chat` (src/services/adapters/openai.py lines
163-200): same shape as `generate` with the caller's messages passed
through. -/
def openaiChat (modelName : String) (messages : List OpenAIMessage)
    (provider : ModelProvider) (config : Option GenerationConfig)
    (elapsed : ℚ) (outcome : OpenAIOutcome OpenAICompletion) :
    OpenAIPayload × ModelResponse :=
  let c := config.getD defaultGenerationConfig
  let payload : OpenAIPayload :=
    { model := modelName
      messages := messages
      temperature := c.temperature
      max_tokens := c.max_tokens
      top_p := c.top_p }
  match outcome with
  | .result r =>
      (payload,
       { content := r.content
         model := modelName
         provider := provider.value
         success := true
         response_time := elapsed
         tokens_used := r.usage.map (·.1)
         tokens_prompt := r.usage.map (·.2) })
  | .exc msg =>
      (payload,
       { content := ""
         model := modelName
         provider := provider.value
         success := false
         response_time := elapsed
         error := some msg })

/-- The environment variables `config/settings.py` `APIConfig.CONFIGS`
reads through `os.getenv`: `none` is an unset variable.  Only the
variables that decide provider availability are modelled. -/
structure ApiEnv where
  ollama_base_url : Option String := none
  openai_api_key : Option String := none
  anthropic_api_key : Option String := none
  qwen_api_key : Option String := none
  chatglm_api_key : Option String := none
  deepseek_api_key : Option String := none
  moonshot_api_key : Option String := none
deriving DecidableEq, Repr

/-- Python truthiness of an optional string: `None` and `""` are falsy. -/
def pyTruthy : Option String → Bool
  | none => false
  | some s => s ≠ ""

/-- Embedding of `APIConfig.CONFIGS[provider]["api_key"]`.  `CONFIGS` has no entry for
`ERNIE` (the source writes one under the non-existent name
`ModelProvider.QIANFAN` instead), so `CONFIGS.get(ERNIE, {}).get("api_key")`
is `None`; the Ollama entry's key is the literal `None`. -/
def apiKeyFor (env : ApiEnv) : ModelProvider → Option String
  | .ollama => none
  | .openai => env.openai_api_key
  | .anthropic => env.anthropic_api_key
  | .qwen => env.qwen_api_key
  | .chatglm => env.chatglm_api_key
  | .deepseek => env.deepseek_api_key
  | .moonshot => env.moonshot_api_key
  | .ernie => none

/-- Embedding of `APIConfig.CONFIGS[OLLAMA]["base_url"]`:
`os.getenv("OLLAMA_BASE_URL", "http://localhost:11434")`. -/
def ollamaBaseUrl (env : ApiEnv) : String :=
  env.ollama_base_url.getD "http://localhost:11434"

/-- The members of the `ModelProvider` enum in definition order, i.e. the
iteration order of `for provider in ModelProvider`. -/
def allProviders : List ModelProvider :=
  [.ollama, .openai, .anthropic, .qwen, .chatglm, .deepseek, .moonshot, .ernie]

/-- Embedding of `ConfigValidator.get_available_providers` (src/config/settings.py
lines 420-440): Ollama is available when its base URL is truthy; every
other provider when `require_api_key` is off or its configured key is
truthy. -/
def getAvailableProviders (env : ApiEnv) (requireApiKey : Bool) :
    List ModelProvider :=
  allProviders.filter (fun p =>
    match p with
    | .ollama => ollamaBaseUrl env ≠ ""
    | _ => !requireApiKey || pyTruthy (apiKeyFor env p))

/-- An adapter instance as the Universal Client's cache sees it: its
bound (provider, model) pair plus a construction serial number that lets
the theorems count and compare constructions. -/
structure Adapter where
  provider : ModelProvider
  modelName : String
  serial : ℕ
deriving DecidableEq, Repr

/-- The client state touched by `_get_adapter`: the `self.adapters` dict
(an insertion-ordered key-to-adapter map) plus the running count of
adapter constructions performed. -/
structure ClientState where
  adapters : List (String × Adapter) := []
  constructions : ℕ := 0
deriving DecidableEq, Repr

/-- Embedding of `UniversalModelClient._get_adapter_key` (src/core/client.py lines
108-110). -/
def adapterKey (provider : ModelProvider) (modelName : String) : String :=
  provider.value ++ ":" ++ modelName

/-- Dict lookup `adapter_key in self.adapters` / `self.adapters[key]`. -/
def lookupAdapter (cache : List (String × Adapter)) (key : String) :
    Option Adapter :=
  (cache.find? (fun kv => kv.1 = key)).map (·.2)

/-- Embedding of `UniversalModelClient._create_adapter` as the cache sees it: one
construction, producing a fresh instance bound to (provider, model). -/
def createAdapter (s : ClientState) (provider : ModelProvider)
    (modelName : String) : ClientState × Adapter :=
  ({ s with constructions := s.constructions + 1 },
   { provider := provider, modelName := modelName, serial := s.constructions })

/-- Embedding of `UniversalModelClient._get_adapter` (src/core/client.py lines
112-119): construct and insert only when the key is absent, then return
the cached entry. -/
def getAdapter (s : ClientState) (provider : ModelProvider)
    (modelName : String) : ClientState × Adapter :=
  let key := adapterKey provider modelName
  match lookupAdapter s.adapters key with
  | some a => (s, a)
  | none =>
      let (s1, a) := createAdapter s provider modelName
      ({ s1 with adapters := s1.adapters ++ [(key, a)] }, a)

/-- The per-provider branch of `UniversalModelClient.get_available_models`
(src/core/client.py lines 248-259): construct a transient adapter and
fetch its catalog, both inside one `try` whose handler returns `[]`.
`createFetch p` is the combined outcome of that construction and fetch. -/
def clientModelsForProvider
    (createFetch : ModelProvider → Except String (List ModelInfo))
    (p : ModelProvider) : List ModelInfo :=
  match createFetch p with
  | .ok l => l
  | .error _ => []

/-- Embedding of `UniversalModelClient.get_available_models` with `provider=None`
(src/core/client.py lines 260-272): fan out over
`ConfigValidator.get_available_providers()` and extend the accumulator
with each provider's result.  The recursive call inside the loop already
catches every exception and returns `[]`, so the loop's own
`try`/`except` never fires and is not modelled as a separate branch. -/
def clientGetAvailableModelsAll (env : ApiEnv)
    (createFetch : ModelProvider → Except String (List ModelInfo)) :
    List ModelInfo :=
  (getAvailableProviders env true).foldl
    (fun acc p => acc ++ clientModelsForProvider createFetch p) []

/-- Embedding of `BaseModelAdapter._merge_config` again, at the level of the Python
object heap, for the frame claim: the heap is a store of
`GenerationConfig` objects addressed by allocation index.
`GenerationConfig(**config.to_dict())` allocates a fresh object, the
`setattr` loop mutates only that fresh object, and the pair returned is
the final heap together with the reference to the merged config.  (A
dangling `cfgRef` cannot occur in the Python caller; `getD` totalizes the
lookup.) -/
def mergeConfigHeap (heap : List GenerationConfig) (cfgRef : Option ℕ)
    (modelConfig : Option CatalogModel) : List GenerationConfig × ℕ :=
  let defaultParams := (modelConfig.map (·.parameters)).getD {}
  let init : GenerationConfig :=
    match cfgRef with
    | some i =>
        GenerationConfig.fromDict
          ((heap[i]?.getD defaultGenerationConfig).toDict)
    | none => defaultGenerationConfig
  let r := heap.length
  let heap1 := heap ++ [init]
  let heap2 := heap1.set r
    (applyCatalogDefaults defaultParams
      (heap1[r]?.getD defaultGenerationConfig))
  (heap2, r)

/-- Embedding of `UserSession.add_optimization` (src/core/models.py lines 299-306):
append, then truncate to the last 50 entries when the length exceeds 50.
The function never reads the stored results, so the element type is a
parameter. -/
def addOptimization {α : Type} (history : List α) (r : α) : List α :=
  let h := history ++ [r]
  if 50 < h.length then h.drop (h.length - 50) else h

/-- Sample catalog entry used to instantiate theorems at concrete inputs. -/
def sampleModelA : ModelInfo :=
  { name := "a-model", display_name := "A", provider := .ollama }

/-- Second sample catalog entry for concrete instantiations. -/
def sampleModelB : ModelInfo :=
  { name := "b-model", display_name := "B", provider := .deepseek }

/-! ## Helper lemmas -/

theorem string_of_length_zero (a : String) (h : a.length = 0) : a = "" := by
  cases a with
  | mk data =>
    cases data with
    | nil => rfl
    | cons c cs => simp [String.length] at h

theorem append_ne_empty_string (a b : String) (h : a ≠ "") : a ++ b ≠ "" := by
  intro hab
  apply h
  have hl := congrArg String.length hab
  rw [String.length_append, show ("" : String).length = 0 from rfl] at hl
  exact string_of_length_zero a (by omega)

theorem string_take_ne (a b : String) (k : ℕ)
    (h : a.data.take k ≠ b.data.take k) : a ≠ b :=
  fun he => h (by rw [he])

theorem data_take_append_le (p x : String) (k : ℕ)
    (hk : k ≤ p.data.length) : (p ++ x).data.take k = p.data.take k := by
  rw [String.data_append]
  exact List.take_append_of_le_length hk

theorem some_string_ne (a b : String) (h : a ≠ b) :
    (some a : Option String) ≠ some b :=
  fun he => h (Option.some.inj he)

theorem lookupAdapter_append_self (l : List (String × Adapter)) (k : String)
    (a : Adapter) (h : lookupAdapter l k = none) :
    lookupAdapter (l ++ [(k, a)]) k = some a := by
  unfold lookupAdapter at h ⊢
  rw [List.find?_append]
  have hf : l.find? (fun kv => kv.1 = k) = none := by
    cases hfind : l.find? (fun kv => kv.1 = k) with
    | none => rfl
    | some kv => rw [hfind] at h; simp at h
  rw [hf]
  simp [List.find?]

/-- The general shape of the session history after any run of
`add_optimization` calls starting from an empty history: it is exactly
the run's last 50 entries, in insertion order. -/
theorem foldl_addOptimization_spec {α : Type} (rs : List α) :
    rs.foldl addOptimization [] = rs.drop (rs.length - 50) := by
  induction rs using List.reverseRecOn with
  | nil => rfl
  | append_singleton rs r ih =>
    rw [List.foldl_append, List.foldl_cons, List.foldl_nil, ih]
    by_cases hn : rs.length < 50
    · have h0 : rs.length - 50 = 0 := by omega
      have h1 : (rs ++ [r]).length - 50 = 0 := by
        rw [List.length_append]; simp; omega
      simp only [addOptimization, h0, List.drop_zero, h1]
      rw [if_neg (by rw [List.length_append]; simp; omega)]
    · have hlen : (rs.drop (rs.length - 50)).length = 50 := by
        rw [List.length_drop]; omega
      simp only [addOptimization]
      rw [if_pos (by rw [List.length_append, hlen]; simp)]
      rw [List.length_append, hlen]
      rw [show (50 : ℕ) + [r].length - 50 = 1 by simp]
      rw [List.drop_append_of_le_length (by omega : 1 ≤ (rs.drop (rs.length - 50)).length)]
      rw [List.drop_drop]
      rw [List.length_append,
        List.drop_append_of_le_length
          (by simp only [List.length_singleton]
              omega : rs.length + [r].length - 50 ≤ rs.length)]
      have hidx : rs.length - 50 + 1 = rs.length + [r].length - 50 := by
        simp only [List.length_singleton]
        omega
      rw [hidx]

/-! ## Claim theorems -/

/-- C7: `to_dict` keeps the six never-`None` fields and passes the three
`Optional` fields through unchanged (so it omits exactly the `None`-valued
ones), and `from_dict` of that dict rebuilds a config equal to the
original in every field — in particular in every explicitly-set one. -/
theorem toDict_roundtrip_exact (c : GenerationConfig) :
    GenerationConfig.fromDict c.toDict = c ∧
    c.toDict.temperature = some c.temperature ∧
    c.toDict.top_p = some c.top_p ∧
    c.toDict.max_tokens = some c.max_tokens ∧
    c.toDict.stream = some c.stream ∧
    c.toDict.frequency_penalty = some c.frequency_penalty ∧
    c.toDict.presence_penalty = some c.presence_penalty ∧
    c.toDict.top_k = c.top_k ∧
    c.toDict.stop_sequences = c.stop_sequences ∧
    c.toDict.system_prompt = c.system_prompt := by
  refine ⟨fromDict_toDict c, ?_, ?_, ?_, ?_, ?_, ?_, ?_, ?_, ?_⟩ <;> rfl

/-- C2: the merge fills every field still holding its construction
default from the catalog default parameter of the same name and keeps
every field that differs from the construction default; in particular a
catalog default `temperature = 0.3` overrides a caller temperature equal
to the global default `0.7`. -/
theorem merge_config_default_sentinel (mc : CatalogModel)
    (c : GenerationConfig) :
    (mergeConfig (some mc) (some c)).temperature =
      (if c.temperature = mkRat 7 10
       then mc.parameters.temperature.getD c.temperature
       else c.temperature) ∧
    (mergeConfig (some mc) (some c)).top_p =
      (if c.top_p = mkRat 9 10
       then mc.parameters.top_p.getD c.top_p else c.top_p) ∧
    (mergeConfig (some mc) (some c)).top_k =
      (if c.top_k = none then mc.parameters.top_k else c.top_k) ∧
    (mergeConfig (some mc) (some c)).max_tokens =
      (if c.max_tokens = 4096
       then mc.parameters.max_tokens.getD c.max_tokens else c.max_tokens) ∧
    (mergeConfig (some mc) (some c)).frequency_penalty =
      (if c.frequency_penalty = 0
       then mc.parameters.frequency_penalty.getD c.frequency_penalty
       else c.frequency_penalty) ∧
    (mergeConfig (some mc) (some c)).presence_penalty =
      (if c.presence_penalty = 0
       then mc.parameters.presence_penalty.getD c.presence_penalty
       else c.presence_penalty) ∧
    (mergeConfig (some mc) (some c)).stop_sequences = c.stop_sequences ∧
    (mergeConfig (some mc) (some c)).stream = c.stream ∧
    (mergeConfig (some mc) (some c)).system_prompt = c.system_prompt ∧
    (mergeConfig
      (some { name := "m", display_name := "m", description := "",
              category := "", context_length := 0,
              parameters := { temperature := some (mkRat 3 10) } })
      (some defaultGenerationConfig)).temperature = mkRat 3 10 := by
  simp only [mergeConfig, fromDict_toDict, applyCatalogDefaults]
  refine ⟨?_, ?_, ?_, ?_, ?_, ?_, by simp, by simp, by simp, by decide⟩
  · cases h : mc.parameters.temperature <;> simp [mergeField, h]
  · cases h : mc.parameters.top_p <;> simp [mergeField, h]
  · cases h : mc.parameters.top_k with
    | none =>
      simp only [Option.map_some', Option.getD_some, h, Option.map_none',
        mergeField]
      split_ifs with hc
      · exact hc
      · rfl
    | some v => simp [mergeField, h]
  · cases h : mc.parameters.max_tokens <;> simp [mergeField, h]
  · cases h : mc.parameters.frequency_penalty <;> simp [mergeField, h]
  · cases h : mc.parameters.presence_penalty <;> simp [mergeField, h]

/-- C8: from a fresh session, any run of `add_optimization` calls leaves
at most 50 history entries, and the history is exactly the run's last 50
results in insertion order — so a run of 51 results leaves exactly 50
with the first-added result evicted. -/
theorem session_history_bounded {α : Type} (rs : List α) :
    (rs.foldl addOptimization []).length ≤ 50 ∧
    rs.foldl addOptimization [] = rs.drop (rs.length - 50) := by
  refine ⟨?_, foldl_addOptimization_spec rs⟩
  rw [foldl_addOptimization_spec rs, List.length_drop]
  omega

/-- C9: `_merge_config` mutates only the freshly allocated copy: the
caller's config object is unchanged on the heap, and the returned
reference holds exactly the pure merge result. -/
theorem merge_config_frame (heap : List GenerationConfig) (i : ℕ)
    (c : GenerationConfig) (mc : Option CatalogModel)
    (hc : heap[i]? = some c) :
    ((mergeConfigHeap heap (some i) mc).1)[i]? = some c ∧
    ((mergeConfigHeap heap (some i) mc).1)[(mergeConfigHeap heap (some i) mc).2]? =
      some (mergeConfig mc (some c)) := by
  have hi : i < heap.length := by
    by_contra hge
    rw [List.getElem?_eq_none (by omega)] at hc
    exact Option.noConfusion hc
  constructor
  · simp only [mergeConfigHeap]
    rw [List.getElem?_set_ne (by omega : heap.length ≠ i)]
    rw [List.getElem?_append_left hi]
    exact hc
  · simp only [mergeConfigHeap, hc, Option.getD_some]
    rw [List.getElem?_set_eq_of_lt _ (by simp :
      heap.length < (heap ++
        [GenerationConfig.fromDict c.toDict]).length)]
    rw [List.getElem?_concat_length]
    simp [mergeConfig]

/-- C9 witness: the frame theorem applied to a one-object heap. -/
theorem merge_config_frame_witness :
    ([defaultGenerationConfig][0]? = some defaultGenerationConfig) ∧
    ((mergeConfigHeap [defaultGenerationConfig] (some 0) none).1)[0]? =
      some defaultGenerationConfig :=
  ⟨rfl, (merge_config_frame [defaultGenerationConfig] 0
    defaultGenerationConfig none rfl).1⟩

/-- C1 (as stated) is false on the code: on a timeout the Ollama
adapter's `generate` reports the configured timeout (60) as
`response_time`, not the measured elapsed time so far (here 1). -/
theorem ollama_timeout_not_measured_elapsed :
    (ollamaGenerate 60 "m" 1 .timeout).success = false ∧
    (ollamaGenerate 60 "m" 1 .timeout).response_time = 60 ∧
    (ollamaGenerate 60 "m" 1 .timeout).response_time ≠ 1 := by
  refine ⟨rfl, by decide, by decide⟩

/-- C1 (amended): on every per-call failure neither adapter raises; the
result has `success = false`, empty content, and a non-empty error string
distinguishing timeout vs. connection-refused vs. HTTP-status vs. unknown
failure — the Ollama adapter through fixed category tags (`HTTP ...`,
`请求超时`/`聊天请求超时`, `无法连接`, `请求失败`/`聊天请求失败`), whose error strings are
pairwise distinct across categories for all parameter values, and the
OpenAI adapter by forwarding the SDK exception's message verbatim, so its
error strings are distinct across categories whenever the SDK exception
messages are distinct (and non-empty whenever they are non-empty, as for
the SDK's four exception types); `response_time` is the measured elapsed
time on every failure path except the Ollama timeout branches, which
report the configured timeout value instead. -/
theorem generate_failure_contract (timeoutCfg elapsed : ℚ)
    (modelName prompt : String) (messages : List OpenAIMessage)
    (provider : ModelProvider) (config : Option GenerationConfig)
    (status : ℕ) (errJson : Option (Option String)) (text msg : String)
    (excMsgA excMsgB : String) (hmsg : msg ≠ "") (hAB : excMsgA ≠ excMsgB) :
    (∀ o : OllamaOutcome OllamaGenBody, o.isFailure = true →
      (ollamaGenerate timeoutCfg modelName elapsed o).success = false ∧
      (ollamaGenerate timeoutCfg modelName elapsed o).content = "" ∧
      (ollamaGenerate timeoutCfg modelName elapsed o).response_time =
        (if o = .timeout then timeoutCfg else elapsed) ∧
      ∃ s, (ollamaGenerate timeoutCfg modelName elapsed o).error = some s ∧
        s ≠ "") ∧
    (∀ o : OllamaOutcome OllamaChatBody, o.isFailure = true →
      (ollamaChat timeoutCfg modelName elapsed o).success = false ∧
      (ollamaChat timeoutCfg modelName elapsed o).content = "" ∧
      (ollamaChat timeoutCfg modelName elapsed o).response_time =
        (if o = .timeout then timeoutCfg else elapsed) ∧
      ∃ s, (ollamaChat timeoutCfg modelName elapsed o).error = some s ∧
        s ≠ "") ∧
    ((openaiGenerate modelName prompt provider config elapsed
        (.exc msg)).2.success = false ∧
     (openaiGenerate modelName prompt provider config elapsed
        (.exc msg)).2.content = "" ∧
     (openaiGenerate modelName prompt provider config elapsed
        (.exc msg)).2.response_time = elapsed ∧
     (openaiGenerate modelName prompt provider config elapsed
        (.exc msg)).2.error = some msg ∧ msg ≠ "") ∧
    ((openaiChat modelName messages provider config elapsed
        (.exc msg)).2.success = false ∧
     (openaiChat modelName messages provider config elapsed
        (.exc msg)).2.content = "" ∧
     (openaiChat modelName messages provider config elapsed
        (.exc msg)).2.response_time = elapsed ∧
     (openaiChat modelName messages provider config elapsed
        (.exc msg)).2.error = some msg ∧ msg ≠ "") ∧
    ((ollamaGenerate timeoutCfg modelName elapsed
        (.httpError status errJson text)).error ≠
      (ollamaGenerate timeoutCfg modelName elapsed .timeout).error ∧
     (ollamaGenerate timeoutCfg modelName elapsed
        (.httpError status errJson text)).error ≠
      (ollamaGenerate timeoutCfg modelName elapsed .connError).error ∧
     (ollamaGenerate timeoutCfg modelName elapsed
        (.httpError status errJson text)).error ≠
      (ollamaGenerate timeoutCfg modelName elapsed (.otherExc msg)).error ∧
     (ollamaGenerate timeoutCfg modelName elapsed .timeout).error ≠
      (ollamaGenerate timeoutCfg modelName elapsed .connError).error ∧
     (ollamaGenerate timeoutCfg modelName elapsed .timeout).error ≠
      (ollamaGenerate timeoutCfg modelName elapsed (.otherExc msg)).error ∧
     (ollamaGenerate timeoutCfg modelName elapsed .connError).error ≠
      (ollamaGenerate timeoutCfg modelName elapsed (.otherExc msg)).error) ∧
    ((ollamaChat timeoutCfg modelName elapsed
        (.httpError status errJson text)).error ≠
      (ollamaChat timeoutCfg modelName elapsed .timeout).error ∧
     (ollamaChat timeoutCfg modelName elapsed
        (.httpError status errJson text)).error ≠
      (ollamaChat timeoutCfg modelName elapsed .connError).error ∧
     (ollamaChat timeoutCfg modelName elapsed
        (.httpError status errJson text)).error ≠
      (ollamaChat timeoutCfg modelName elapsed (.otherExc msg)).error ∧
     (ollamaChat timeoutCfg modelName elapsed .timeout).error ≠
      (ollamaChat timeoutCfg modelName elapsed .connError).error ∧
     (ollamaChat timeoutCfg modelName elapsed .timeout).error ≠
      (ollamaChat timeoutCfg modelName elapsed (.otherExc msg)).error ∧
     (ollamaChat timeoutCfg modelName elapsed .connError).error ≠
      (ollamaChat timeoutCfg modelName elapsed (.otherExc msg)).error) ∧
    (openaiGenerate modelName prompt provider config elapsed
        (.exc excMsgA)).2.error ≠
      (openaiGenerate modelName prompt provider config elapsed
        (.exc excMsgB)).2.error ∧
    (openaiChat modelName messages provider config elapsed
        (.exc excMsgA)).2.error ≠
      (openaiChat modelName messages provider config elapsed
        (.exc excMsgB)).2.error := by
  refine ⟨?_, ?_, ⟨rfl, rfl, rfl, rfl, hmsg⟩, ⟨rfl, rfl, rfl, rfl, hmsg⟩,
    ⟨?_, ?_, ?_, ?_, ?_, ?_⟩, ⟨?_, ?_, ?_, ?_, ?_, ?_⟩,
    fun h => hAB (Option.some.inj h), fun h => hAB (Option.some.inj h)⟩
  · intro o ho
    cases o with
    | body b => simp [OllamaOutcome.isFailure] at ho
    | httpError status errJson text =>
        exact ⟨rfl, rfl, by simp [ollamaGenerate],
          ollamaHttpErrorMsg status errJson text, rfl,
          append_ne_empty_string _ _
            (append_ne_empty_string _ _
              (append_ne_empty_string "HTTP " _ (by decide)))⟩
    | timeout =>
        exact ⟨rfl, rfl, by simp [ollamaGenerate], _, rfl,
          append_ne_empty_string _ _
            (append_ne_empty_string "请求超时 (" _ (by decide))⟩
    | connError =>
        exact ⟨rfl, rfl, by simp [ollamaGenerate], _, rfl, by decide⟩
    | otherExc m =>
        exact ⟨rfl, rfl, by simp [ollamaGenerate], _, rfl,
          append_ne_empty_string "请求失败: " _ (by decide)⟩
  · intro o ho
    cases o with
    | body b => simp [OllamaOutcome.isFailure] at ho
    | httpError status errJson text =>
        exact ⟨rfl, rfl, by simp [ollamaChat],
          ollamaHttpErrorMsg status errJson text, rfl,
          append_ne_empty_string _ _
            (append_ne_empty_string _ _
              (append_ne_empty_string "HTTP " _ (by decide)))⟩
    | timeout =>
        exact ⟨rfl, rfl, by simp [ollamaChat], _, rfl,
          append_ne_empty_string _ _
            (append_ne_empty_string "聊天请求超时 (" _ (by decide))⟩
    | connError =>
        exact ⟨rfl, rfl, by simp [ollamaChat], _, rfl, by decide⟩
    | otherExc m =>
        exact ⟨rfl, rfl, by simp [ollamaChat], _, rfl,
          append_ne_empty_string "聊天请求失败: " _ (by decide)⟩
  · simp only [ollamaGenerate]
    apply some_string_ne
    apply string_take_ne _ _ 1
    simp only [ollamaHttpErrorMsg, String.append_assoc]
    rw [data_take_append_le "HTTP " _ 1 (by decide),
      data_take_append_le "请求超时 (" _ 1 (by decide)]
    decide
  · simp only [ollamaGenerate]
    apply some_string_ne
    apply string_take_ne _ _ 1
    simp only [ollamaHttpErrorMsg, String.append_assoc]
    rw [data_take_append_le "HTTP " _ 1 (by decide)]
    decide
  · simp only [ollamaGenerate]
    apply some_string_ne
    apply string_take_ne _ _ 1
    simp only [ollamaHttpErrorMsg, String.append_assoc]
    rw [data_take_append_le "HTTP " _ 1 (by decide),
      data_take_append_le "请求失败: " _ 1 (by decide)]
    decide
  · simp only [ollamaGenerate]
    apply some_string_ne
    apply string_take_ne _ _ 1
    simp only [String.append_assoc]
    rw [data_take_append_le "请求超时 (" _ 1 (by decide)]
    decide
  · simp only [ollamaGenerate]
    apply some_string_ne
    apply string_take_ne _ _ 3
    simp only [String.append_assoc]
    rw [data_take_append_le "请求超时 (" _ 3 (by decide),
      data_take_append_le "请求失败: " _ 3 (by decide)]
    decide
  · simp only [ollamaGenerate]
    apply some_string_ne
    apply string_take_ne _ _ 1
    simp only [String.append_assoc]
    rw [data_take_append_le "请求失败: " _ 1 (by decide)]
    decide
  · simp only [ollamaChat]
    apply some_string_ne
    apply string_take_ne _ _ 1
    simp only [ollamaHttpErrorMsg, String.append_assoc]
    rw [data_take_append_le "HTTP " _ 1 (by decide),
      data_take_append_le "聊天请求超时 (" _ 1 (by decide)]
    decide
  · simp only [ollamaChat]
    apply some_string_ne
    apply string_take_ne _ _ 1
    simp only [ollamaHttpErrorMsg, String.append_assoc]
    rw [data_take_append_le "HTTP " _ 1 (by decide)]
    decide
  · simp only [ollamaChat]
    apply some_string_ne
    apply string_take_ne _ _ 1
    simp only [ollamaHttpErrorMsg, String.append_assoc]
    rw [data_take_append_le "HTTP " _ 1 (by decide),
      data_take_append_le "聊天请求失败: " _ 1 (by decide)]
    decide
  · simp only [ollamaChat]
    apply some_string_ne
    apply string_take_ne _ _ 1
    simp only [String.append_assoc]
    rw [data_take_append_le "聊天请求超时 (" _ 1 (by decide)]
    decide
  · simp only [ollamaChat]
    apply some_string_ne
    apply string_take_ne _ _ 5
    simp only [String.append_assoc]
    rw [data_take_append_le "聊天请求超时 (" _ 5 (by decide),
      data_take_append_le "聊天请求失败: " _ 5 (by decide)]
    decide
  · simp only [ollamaChat]
    apply some_string_ne
    apply string_take_ne _ _ 1
    simp only [String.append_assoc]
    rw [data_take_append_le "聊天请求失败: " _ 1 (by decide)]
    decide

/-- C1 amended witness: the contract instantiated at concrete inputs,
with the actual messages of the SDK timeout and connection-error
exceptions. -/
theorem generate_failure_contract_witness :
    (ollamaGenerate 60 "m" 1 (.otherExc "boom")).success = false ∧
    (openaiGenerate "m" "p" .openai none 1
        (.exc "Request timed out.")).2.error ≠
      (openaiGenerate "m" "p" .openai none 1
        (.exc "Connection error.")).2.error := by
  have h := generate_failure_contract 60 1 "m" "p" [] .openai none 500 none
    "body" "boom" "Request timed out." "Connection error." (by decide)
    (by decide)
  exact ⟨(h.1 (.otherExc "boom") rfl).1, h.2.2.2.2.2.2.1⟩

/-- C3: every backend failure mode (timeout, refused connection, non-2xx
status, malformed body / other exception) makes `check_connection` return
— not raise — a `ConnectionStatus` with `connected = false`, a non-empty
status message and a non-empty error detail; for the OpenAI adapter both
carry the exception's message, so the detail is non-empty whenever the
SDK exception's message is (which it is for all four listed backend
states). -/
theorem check_connection_failure_contract (elapsed : ℚ)
    (provider : ModelProvider) (msg : String) (hmsg : msg ≠ "") :
    (∀ o : OllamaOutcome OllamaTagsBody, o.isFailure = true →
      (ollamaCheckConnection elapsed o).connected = false ∧
      (ollamaCheckConnection elapsed o).status_message ≠ "" ∧
      ∃ d, (ollamaCheckConnection elapsed o).error_details = some d ∧
        d ≠ "") ∧
    ((openaiCheckConnection provider elapsed (.exc msg)).connected = false ∧
     (openaiCheckConnection provider elapsed (.exc msg)).status_message ≠ "" ∧
     (openaiCheckConnection provider elapsed (.exc msg)).error_details =
       some msg ∧ msg ≠ "") := by
  refine ⟨?_, rfl, append_ne_empty_string "连接失败: " _ (by decide),
    rfl, hmsg⟩
  intro o ho
  cases o with
  | body b => simp [OllamaOutcome.isFailure] at ho
  | httpError status errJson text =>
      exact ⟨rfl, append_ne_empty_string "HTTP " _ (by decide),
        _, rfl, append_ne_empty_string "服务响应异常: " _ (by decide)⟩
  | timeout =>
      exact ⟨rfl, (show ("连接超时" : String) ≠ "" by decide), _, rfl,
        (show ("连接超时，请检查网络状态" : String) ≠ "" by decide)⟩
  | connError =>
      exact ⟨rfl, (show ("连接失败" : String) ≠ "" by decide), _, rfl,
        (show ("无法连接到Ollama服务，请确保服务已启动" : String) ≠ "" by decide)⟩
  | otherExc m =>
      exact ⟨rfl, (show ("未知错误" : String) ≠ "" by decide), _, rfl,
        append_ne_empty_string "连接检查失败: " _ (by decide)⟩

/-- C3 witness: the contract instantiated at concrete inputs. -/
theorem check_connection_failure_contract_witness :
    (ollamaCheckConnection 1 (.httpError 500 none "x")).connected = false ∧
    (openaiCheckConnection .openai 1 (.exc "boom")).connected = false := by
  have h := check_connection_failure_contract 1 .openai "boom" (by decide)
  exact ⟨(h.1 (.httpError 500 none "x") rfl).1, h.2.1⟩

/-- C4: the adapter cache key is `"{provider}:{model}"`, and on a key not
previously cached the first call constructs exactly one adapter while the
immediately following call with the same (provider, model) performs no
construction, changes nothing, and returns the same cached instance. -/
theorem adapter_cache_single_construction (s : ClientState)
    (p : ModelProvider) (m : String)
    (habs : lookupAdapter s.adapters (adapterKey p m) = none) :
    adapterKey p m = p.value ++ ":" ++ m ∧
    (getAdapter s p m).1.constructions = s.constructions + 1 ∧
    getAdapter (getAdapter s p m).1 p m = getAdapter s p m := by
  have h2 := lookupAdapter_append_self s.adapters (adapterKey p m)
    { provider := p, modelName := m, serial := s.constructions } habs
  refine ⟨rfl, ?_, ?_⟩
  · simp [getAdapter, habs, createAdapter]
  · simp [getAdapter, habs, createAdapter, h2]

/-- C4 witness: the cache theorem applied to a fresh client state. -/
theorem adapter_cache_single_construction_witness :
    (getAdapter ({} : ClientState) .ollama "llama3.2:latest").1.constructions =
      0 + 1 :=
  (adapter_cache_single_construction {} .ollama "llama3.2:latest" rfl).2.1

/-- C5 (as stated) is false on the code: on a non-2xx catalog fetch the
Ollama adapter returns the empty list even though a non-empty static
Ollama catalog exists in `ModelConfig.MODELS`. -/
theorem ollama_models_ignore_static_catalog :
    ollamaGetAvailableModels (.httpError 500 none "error") = [] ∧
    ollamaCatalogModels ≠ [] := by
  exact ⟨rfl, by decide⟩

/-- C5 (amended): no failure mode propagates an exception from
`get_available_models`; the OpenAI-compatible adapter degrades to the
provider's static catalog (marked unavailable, empty exactly when no
static catalog exists), but the Ollama adapter returns the empty list on
every remote failure without consulting its static catalog. -/
theorem models_catalog_fallback (status : ℕ)
    (errJson : Option (Option String)) (text msg : String) :
    ollamaGetAvailableModels (.httpError status errJson text) = [] ∧
    ollamaGetAvailableModels .timeout = [] ∧
    ollamaGetAvailableModels .connError = [] ∧
    ollamaGetAvailableModels (.otherExc msg) = [] ∧
    (∀ p : ModelProvider,
      (openaiGetAvailableModels p (.exc msg)).map (·.name) =
        (((modelsCatalog p).map (·.models)).getD []).map (·.name)) ∧
    (∀ p : ModelProvider,
      (openaiGetAvailableModels p (.exc msg)).all
        (fun mi => !mi.available) = true) ∧
    (openaiGetAvailableModels .openai (.exc msg)).map (·.name) =
      ["gpt-4o", "gpt-4-turbo", "gpt-3.5-turbo"] ∧
    (openaiGetAvailableModels .deepseek (.exc msg)).map (·.name) =
      ["deepseek-chat", "deepseek-reasoner"] ∧
    openaiGetAvailableModels .qwen (.exc msg) = [] := by
  refine ⟨rfl, rfl, rfl, rfl, ?_, ?_, rfl, rfl, rfl⟩
  · intro p
    cases p <;> rfl
  · intro p
    cases p <;> rfl

/-- C6: `get_available_models()` with no provider fans out over every
provider with usable configuration (here an environment configuring
exactly Ollama, OpenAI and DeepSeek), skips — without raising — the one
whose catalog fetch throws, and returns the concatenated catalogs of the
other two. -/
theorem client_models_skip_throwing_provider
    (createFetch : ModelProvider → Except String (List ModelInfo))
    (cA cC : List ModelInfo) (e : String)
    (hA : createFetch .ollama = .ok cA)
    (hB : createFetch .openai = .error e)
    (hC : createFetch .deepseek = .ok cC) :
    getAvailableProviders
      { openai_api_key := some "sk-test", deepseek_api_key := some "sk-test2" }
      true = [.ollama, .openai, .deepseek] ∧
    clientGetAvailableModelsAll
      { openai_api_key := some "sk-test", deepseek_api_key := some "sk-test2" }
      createFetch = cA ++ cC := by
  refine ⟨by decide, ?_⟩
  have hprov : getAvailableProviders
      { openai_api_key := some "sk-test", deepseek_api_key := some "sk-test2" }
      true = [.ollama, .openai, .deepseek] := by decide
  rw [clientGetAvailableModelsAll, hprov]
  simp [clientModelsForProvider, hA, hB, hC]

/-- C6 witness: the fan-out applied to a concrete fetch function whose
OpenAI branch throws. -/
theorem client_models_skip_throwing_provider_witness :
    clientGetAvailableModelsAll
      { openai_api_key := some "sk-test", deepseek_api_key := some "sk-test2" }
      (fun p => match p with
        | .ollama => .ok [sampleModelA]
        | .openai => .error "boom"
        | _ => .ok [sampleModelB]) = [sampleModelA] ++ [sampleModelB] :=
  (client_models_skip_throwing_provider _ [sampleModelA] [sampleModelB]
    "boom" rfl rfl rfl).2

/-- C10: the OpenAI-compatible adapter builds its request payload
directly from the caller's config (or a fresh default when none is
given), transmitting only `temperature`, `max_tokens` and `top_p`;
`top_k`, `stop_sequences`, `system_prompt`, `stream` and the penalties
never influence the payload, and the catalog-default merge is not applied
(a catalog `temperature = 0.3` would change the merged config but leaves
this payload at the global default `0.7`). -/
theorem openai_payload_direct (modelName prompt : String)
    (messages : List OpenAIMessage) (provider : ModelProvider)
    (c : GenerationConfig) (elapsed : ℚ) (o : OpenAIOutcome OpenAICompletion)
    (k : Option ℤ) (sq : Option (List String)) (sp : Option String)
    (st : Bool) (fq pq : ℚ) :
    (openaiGenerate modelName prompt provider (some c) elapsed o).1 =
      { model := modelName,
        messages := [{ role := "user", content := prompt }],
        temperature := c.temperature, max_tokens := c.max_tokens,
        top_p := c.top_p } ∧
    (openaiGenerate modelName prompt provider none elapsed o).1 =
      (openaiGenerate modelName prompt provider
        (some defaultGenerationConfig) elapsed o).1 ∧
    (openaiGenerate modelName prompt provider
        (some { c with top_k := k, stop_sequences := sq, system_prompt := sp,
                       stream := st, frequency_penalty := fq,
                       presence_penalty := pq }) elapsed o).1 =
      (openaiGenerate modelName prompt provider (some c) elapsed o).1 ∧
    (openaiChat modelName messages provider (some c) elapsed o).1 =
      { model := modelName, messages := messages,
        temperature := c.temperature, max_tokens := c.max_tokens,
        top_p := c.top_p } ∧
    (openaiChat modelName messages provider none elapsed o).1 =
      (openaiChat modelName messages provider
        (some defaultGenerationConfig) elapsed o).1 ∧
    (openaiGenerate modelName prompt provider
        (some defaultGenerationConfig) elapsed o).1.temperature =
      mkRat 7 10 ∧
    (mergeConfig
      (some { name := "m", display_name := "m", description := "",
              category := "", context_length := 0,
              parameters := { temperature := some (mkRat 3 10) } })
      (some defaultGenerationConfig)).temperature = mkRat 3 10 := by
  refine ⟨?_, ?_, ?_, ?_, ?_, ?_, by decide⟩ <;> cases o <;> rfl

end PromptOpt
